import Mathlib

/-!
# Verification of the pytop sampling engine (`src/pytop/sysinfo.py`)

Shallow embedding of the sampling and derived-metrics code of the pytop
repository.  Python integers are modelled as `Int`, Python float division on
integer operands as exact division in `ℚ`, Python dictionaries with a fixed
key set as structures of `Option` fields, and raising code as functions that
return the mutated state paired with an error flag.
-/

/-- One `cpuN` row of `/proc/stat`, the `Cpu.CpuStat` namedtuple:
a name plus ten tick counters. -/
structure CpuStat where
  name : String
  user : Int
  nice : Int
  system : Int
  idle : Int
  iowait : Int
  irq : Int
  softirq : Int
  steal : Int
  guest : Int
  guest_nice : Int
  deriving Repr, DecidableEq

/-- Body of the `for prev, new in zip(...)` loop of `Cpu.cpu_usage`
(src/pytop/sysinfo.py lines 53-70): the usage percentage appended for one
core, computed from the previous and current `CpuStat`. -/
def coreUsage (prev new : CpuStat) : ℚ :=
  let idle_prev := prev.idle + prev.iowait
  let non_idle_prev := prev.user + prev.nice + prev.system + prev.irq + prev.softirq + prev.steal
  let total_prev := idle_prev + non_idle_prev
  let idle_new := new.idle + new.iowait
  let non_idle_new := new.user + new.nice + new.system + new.irq + new.softirq + new.steal
  let total_new := idle_new + non_idle_new
  let total_diff := total_new - total_prev
  let idle_diff := idle_new - idle_prev
  if total_diff ≤ 0 then 0
  else ((total_diff - idle_diff : Int) : ℚ) * 100 / ((total_diff : Int) : ℚ)

/-- The `Cpu.cpu_usage` property: zips the previous and current per-core
sample lists and appends one percentage per zipped pair. -/
def cpu_usage (prev_stat curr_stat : List CpuStat) : List ℚ :=
  (List.zip prev_stat curr_stat).map (fun pc => coreUsage pc.1 pc.2)

/-- Following the claim's words (not the source): `totalDiff` as the delta of
the sum of all ten tick fields. -/
def claimTotalDiffTen (prev new : CpuStat) : Int :=
  (new.user + new.nice + new.system + new.idle + new.iowait + new.irq + new.softirq
      + new.steal + new.guest + new.guest_nice)
    - (prev.user + prev.nice + prev.system + prev.idle + prev.iowait + prev.irq + prev.softirq
      + prev.steal + prev.guest + prev.guest_nice)

/-- Following the claim's words: `idleDiff` is the delta of `idle + iowait`. -/
def claimIdleDiff (prev new : CpuStat) : Int :=
  (new.idle + new.iowait) - (prev.idle + prev.iowait)

/-- Following the claim's words: per-core utilization
`100 * (totalDiff - idleDiff) / totalDiff` with the ten-field `totalDiff`. -/
def claimUsageTenFields (prev new : CpuStat) : ℚ :=
  100 * ((claimTotalDiffTen prev new : ℚ) - (claimIdleDiff prev new : ℚ))
    / (claimTotalDiffTen prev new : ℚ)

/-- `totalDiff` as the code actually computes it: the delta of the sum of the
eight fields user, nice, system, idle, iowait, irq, softirq, steal — the
`guest` and `guest_nice` columns are not read by `Cpu.cpu_usage`. -/
def claimTotalDiffCounted (prev new : CpuStat) : Int :=
  (new.user + new.nice + new.system + new.idle + new.iowait + new.irq + new.softirq + new.steal)
    - (prev.user + prev.nice + prev.system + prev.idle + prev.iowait + prev.irq + prev.softirq
      + prev.steal)

/-- A `CpuStat` whose ten counters are all zero. -/
def zeroStat : CpuStat :=
  { name := "cpu0", user := 0, nice := 0, system := 0, idle := 0, iowait := 0,
    irq := 0, softirq := 0, steal := 0, guest := 0, guest_nice := 0 }

/-- Previous sample in the counterexamples: all-zero counters. -/
def cePrevC1 : CpuStat := zeroStat

/-- Current sample in the C1 counterexample: 25 user ticks, 25 idle ticks and
50 guest ticks elapsed. -/
def ceCurrC1 : CpuStat := { zeroStat with user := 25, idle := 25, guest := 50 }

/-- Previous sample in the C2 counterexample: 100 guest ticks, nothing else. -/
def cePrevC2 : CpuStat := { zeroStat with guest := 100 }

/-- Current sample in the C2 counterexample: the guest counter has reset to 0
and 50 user ticks have elapsed. -/
def ceCurrC2 : CpuStat := { zeroStat with user := 50 }

/-- The dictionary built by `MemInfo._read_file`: a mapping holding at most
the eight meaningful fields of `/proc/meminfo` (a field absent from the file
is absent from the dictionary). -/
structure MemInfoMap where
  MemTotal : Option Int
  MemFree : Option Int
  Buffers : Option Int
  Cached : Option Int
  SReclaimable : Option Int
  Shmem : Option Int
  SwapTotal : Option Int
  SwapFree : Option Int
  deriving Repr, DecidableEq

/-- The four derived values a `MemInfo` object stores; `None` before the
first successful assignment (`MemInfo.__init__`). -/
structure MemState where
  total_memory : Option Int
  used_memory : Option Int
  total_swap : Option Int
  used_swap : Option Int
  deriving Repr, DecidableEq

/-- `MemInfo.update` given an already-parsed map: performs the four
assignments in source order inside the `try` block, stopping at the first
missing key (Python `KeyError`, re-raised as `SystemInfoError`).  Returns the
object's state after the call together with `true` when the call raised.
Mirrors that `self._total_memory` is assigned before `used_memory` is
evaluated, and that the `used_memory` expression reads `MemTotal`, `MemFree`,
`Buffers`, `Cached`, `SReclaimable`, `Shmem` before any later assignment. -/
def memUpdate (s : MemState) (info : MemInfoMap) : MemState × Bool :=
  match info.MemTotal with
  | none => (s, true)
  | some t =>
    let s1 : MemState := { s with total_memory := some t }
    match info.MemFree, info.Buffers, info.Cached, info.SReclaimable, info.Shmem with
    | some f, some b, some c, some r, some sh =>
      let s2 : MemState := { s1 with used_memory := some (t - f - b - c - r + sh) }
      match info.SwapTotal with
      | none => (s2, true)
      | some st =>
        let s3 : MemState := { s2 with total_swap := some st }
        match info.SwapFree with
        | none => (s3, true)
        | some sf => ({ s3 with used_swap := some (st - sf) }, false)
    | _, _, _, _, _ => (s1, true)

/-- A map in which every one of the eight required fields is present. -/
def fullMap (t f b c r sh st sf : Int) : MemInfoMap :=
  { MemTotal := some t, MemFree := some f, Buffers := some b, Cached := some c,
    SReclaimable := some r, Shmem := some sh, SwapTotal := some st, SwapFree := some sf }

/-- At least one of the eight required fields is absent from the map. -/
def missingRequired (info : MemInfoMap) : Prop :=
  info.MemTotal = none ∨ info.MemFree = none ∨ info.Buffers = none ∨ info.Cached = none ∨
    info.SReclaimable = none ∨ info.Shmem = none ∨ info.SwapTotal = none ∨ info.SwapFree = none

instance (info : MemInfoMap) : Decidable (missingRequired info) := by
  unfold missingRequired; infer_instance

/-- The per-process CPU bookkeeping a `Process` object carries:
`_time_ticks_old` and `_uptime_old` (both `None` until the first
`_read_stat`) and the derived `cpu_usage` percentage. -/
structure ProcCpuState where
  time_ticks_old : Option Int
  uptime_old : Option Int
  cpu_usage : ℚ
  deriving Repr, DecidableEq

/-- The CPU portion of `Process._read_stat`, given the tick total read from
`/proc/[pid]/stat` (`sum(map(int, values[14:18]))`) and the current uptime of
the shared `Process._uptime` object.  `clk` is the platform constant
`SC_CLK_TCK`.  A `None` baseline is replaced by the current reading before
the difference is taken, and both baselines are advanced at the end. -/
def readStatCpu (clk : Int) (s : ProcCpuState) (time_ticks uptime : Int) : ProcCpuState :=
  let t_old := s.time_ticks_old.getD time_ticks
  let u_old := s.uptime_old.getD uptime
  let seconds := uptime - u_old
  let usage : ℚ :=
    if seconds ≤ 0 then 0
    else 100 * (((time_ticks - t_old : Int) : ℚ) / (clk : ℚ) / ((seconds : Int) : ℚ))
  { time_ticks_old := some time_ticks, uptime_old := some uptime, cpu_usage := usage }

/-- What one successful detailed read of `/proc/[pid]/` yields for the CPU
bookkeeping: the tick total from the stat record and the current uptime. -/
structure ProcEntry where
  time_ticks : Int
  uptime : Int
  deriving Repr, DecidableEq

/-- A `Process` object as far as the registry claims are concerned: its pid
and its CPU bookkeeping. -/
structure ProcRecord where
  pid : Nat
  cpu : ProcCpuState
  deriving Repr, DecidableEq

/-- `Process.__init__`: `cpu_usage` starts at 0.0 and both baselines at
`None`; `update()` is called from the constructor, so the stored CPU state is
one `_read_stat` step from the fresh state. -/
def mkProcess (clk : Int) (pid : Nat) (e : ProcEntry) : ProcRecord :=
  { pid := pid, cpu := readStatCpu clk ⟨none, none, 0⟩ e.time_ticks e.uptime }

/-- The state a `ProcessesController` owns: the set of `Process` objects
(modelled as a list) and the previously enumerated pid set. -/
structure PCtrlState where
  processes : List ProcRecord
  previous : List Nat
  deriving Repr, DecidableEq

/-- The `for pid in new: self._processes.add(Process(pid))` loop.  `table`
is the process pseudo-filesystem at read time: `none` means the pid's
directory vanished after enumeration, so `Process(pid)` raises
`FileNotFoundError` inside `open` — an error `Process.update` does not catch
(it catches only `ValueError` and `IndexError`) — and the loop stops there,
keeping the objects added so far.  Returns the grown object set and whether
the loop raised. -/
def addNew (clk : Int) (table : Nat → Option ProcEntry) :
    List ProcRecord → List Nat → List ProcRecord × Bool
  | procs, [] => (procs, false)
  | procs, pid :: rest =>
    match table pid with
    | none => (procs, true)
    | some e => addNew clk table (procs ++ [mkProcess clk pid e]) rest

/-- `ProcessesController.update`.  Enumerates `actual` pids, computes the
new pid set, and adds a `Process` object per new pid.  The
`for process in self._processes: if process.pid in obsolete: del process`
loop only rebinds the loop variable, so it never removes anything from
`self._processes` and is modelled by leaving the object set untouched; no
`update()` is invoked on already-tracked objects.  If constructing a new
`Process` raises, the exception propagates before
`self._previous_procceses = actual_processes` runs. -/
def ctrlUpdate (clk : Int) (s : PCtrlState) (actual : List Nat)
    (table : Nat → Option ProcEntry) : PCtrlState × Bool :=
  let newPids := actual.filter (fun p => decide (p ∉ s.previous))
  let res := addNew clk table s.processes newPids
  if res.2 then ({ processes := res.1, previous := s.previous }, true)
  else ({ processes := res.1, previous := actual }, false)

/-- Previously tracked record for pid 1 in the C6 scenario. -/
def c6rec1 : ProcRecord := { pid := 1, cpu := ⟨some 10, some 40, 5⟩ }

/-- Previously tracked record for pid 2 in the C6 scenario. -/
def c6rec2 : ProcRecord := { pid := 2, cpu := ⟨some 20, some 40, 7⟩ }

/-- Previously tracked record for pid 3 in the C6 scenario. -/
def c6rec3 : ProcRecord := { pid := 3, cpu := ⟨some 30, some 40, 9⟩ }

/-- The process table during the C6 refresh: pids 2, 3, 4 exist with fresh
tick totals at uptime 50; everything else is gone. -/
def c6table : Nat → Option ProcEntry := fun pid =>
  if pid = 2 then some ⟨200, 50⟩
  else if pid = 3 then some ⟨300, 50⟩
  else if pid = 4 then some ⟨400, 50⟩
  else none

/-- `Utility.kb_to_xb` on an `int` argument.  Python `//` is flooring
division, `Int.fdiv`. -/
def kb_to_xb (kb : Int) : String :=
  if kb < 100 * 1024 then toString kb
  else if kb < 1024 * 1024 then toString (kb.fdiv 1024) ++ "M"
  else toString (kb.fdiv (1024 * 1024)) ++ "G"

/-- A Python argument as `kb_to_xb` classifies it: an `int` (which in Python
includes `bool`) or anything else. -/
inductive PyValue where
  | int (n : Int)
  | nonInt
  deriving Repr, DecidableEq

/-- `Utility.kb_to_xb` with its `isinstance(kb, int)` guard: a non-`int`
argument raises `TypeError`, an `int` argument returns the formatted
string. -/
def kb_to_xb_py : PyValue → Except String String
  | .nonInt => .error "TypeError"
  | .int n => .ok (kb_to_xb n)

/-! ## Theorems -/

/-- C1. The claim computes utilization from the delta of the sum of all TEN
tick fields.  The code sums only eight fields (it ignores `guest` and
`guest_nice`), so on a sample pair in which 50 of 100 elapsed ticks are guest
ticks, the code returns 50 while the claimed formula yields 75. -/
theorem c1_counterexample :
    coreUsage cePrevC1 ceCurrC1 = 50 ∧ claimUsageTenFields cePrevC1 ceCurrC1 = 75 := by
  constructor
  · norm_num [coreUsage, cePrevC1, ceCurrC1, zeroStat]
  · norm_num [claimUsageTenFields, claimTotalDiffTen, claimIdleDiff, cePrevC1, ceCurrC1, zeroStat]

/-- C1 (amended). For every pair of per-core samples whose eight-field
`totalDiff` is positive, the utilization returned for that core equals
`100 * (totalDiff - idleDiff) / totalDiff`, where `totalDiff` is the delta of
the sum of the eight counted tick fields (user, nice, system, idle, iowait,
irq, softirq, steal — `guest` and `guest_nice` are excluded) and `idleDiff`
is the delta of `idle + iowait`. -/
theorem c1_usage_formula_eight_fields (prev new : CpuStat)
    (h : 0 < claimTotalDiffCounted prev new) :
    coreUsage prev new =
      100 * ((claimTotalDiffCounted prev new : ℚ) - (claimIdleDiff prev new : ℚ))
        / (claimTotalDiffCounted prev new : ℚ) := by
  have htd : (new.idle + new.iowait + (new.user + new.nice + new.system + new.irq
      + new.softirq + new.steal)) - (prev.idle + prev.iowait + (prev.user + prev.nice
      + prev.system + prev.irq + prev.softirq + prev.steal)) = claimTotalDiffCounted prev new := by
    simp only [claimTotalDiffCounted]; ring
  have hne : (claimTotalDiffCounted prev new : ℚ) ≠ 0 := by
    exact_mod_cast h.ne'
  simp only [coreUsage, htd, claimIdleDiff]
  rw [if_neg (by omega)]
  push_cast
  field_simp
  ring

/-- Witness for `c1_usage_formula_eight_fields` at the C1 counterexample
inputs restricted to counted fields. -/
theorem c1_usage_formula_eight_fields_witness :
    coreUsage zeroStat { zeroStat with user := 25, idle := 25 } =
      100 * ((claimTotalDiffCounted zeroStat { zeroStat with user := 25, idle := 25 } : ℚ)
          - (claimIdleDiff zeroStat { zeroStat with user := 25, idle := 25 } : ℚ))
        / (claimTotalDiffCounted zeroStat { zeroStat with user := 25, idle := 25 } : ℚ) :=
  c1_usage_formula_eight_fields _ _ (by decide)

/-- C2. The claim asks for utilization exactly 0.0 whenever `totalDiff ≤ 0`,
with `totalDiff` read (per C1) over all ten fields.  On a pair whose ten-field
delta is `-50 ≤ 0` but whose eight counted fields advanced by 50, the code
reports 100, not 0. -/
theorem c2_counterexample :
    claimTotalDiffTen cePrevC2 ceCurrC2 ≤ 0 ∧ coreUsage cePrevC2 ceCurrC2 = 100 := by
  constructor
  · decide
  · norm_num [coreUsage, cePrevC2, ceCurrC2, zeroStat]

/-- C2 (amended). When previous equals current every core reports exactly 0.0
(in particular immediately after construction, where `curr_stat` is
initialized to `prev_stat`), and whenever a core's `totalDiff` computed over
the eight counted fields (guest and guest_nice excluded) is ≤ 0 the reported
utilization is exactly 0 — never negative or undefined. -/
theorem c2_zero_on_no_activity :
    (∀ stat : List CpuStat, cpu_usage stat stat = stat.map (fun _ => 0)) ∧
    (∀ prev new : CpuStat, claimTotalDiffCounted prev new ≤ 0 → coreUsage prev new = 0) := by
  have hcore : ∀ prev new : CpuStat, claimTotalDiffCounted prev new ≤ 0 →
      coreUsage prev new = 0 := by
    intro prev new h
    simp only [claimTotalDiffCounted] at h
    simp only [coreUsage]
    rw [if_pos (by omega)]
  refine ⟨?_, hcore⟩
  intro stat
  induction stat with
  | nil => rfl
  | cons s rest ih =>
    simp only [cpu_usage, List.zip_cons_cons, List.map_cons] at ih ⊢
    refine congrArg₂ _ ?_ ih
    exact hcore s s (by simp [claimTotalDiffCounted])

/-- Witness for `c2_zero_on_no_activity`: a one-core sample with itself, and a
pair whose counted delta is negative. -/
theorem c2_zero_on_no_activity_witness :
    cpu_usage [ceCurrC1] [ceCurrC1] = [0] ∧ coreUsage ceCurrC1 cePrevC1 = 0 :=
  ⟨c2_zero_on_no_activity.1 [ceCurrC1],
   c2_zero_on_no_activity.2 ceCurrC1 cePrevC1 (by decide)⟩

/-- C3. The claim says a change in the number of per-core rows makes the
sampler raise rather than silently truncate.  `Cpu.cpu_usage` contains no such
check: `zip` truncates to the shorter sample, and on a two-row previous sample
against a one-row current sample it returns a one-element list (a plain value
— no error path exists in the function). -/
theorem c3_counterexample :
    cpu_usage [zeroStat, zeroStat] [{ zeroStat with user := 10 }] = [100] ∧
    (cpu_usage [zeroStat, zeroStat] [{ zeroStat with user := 10 }]).length = 1 := by
  constructor
  · norm_num [cpu_usage, coreUsage, zeroStat, List.zip]
  · rfl

/-- C3 (amended). When the row counts differ, `cpu_usage` silently truncates
to the shorter of the two samples (it raises nothing); within the common
prefix, the result preserves the kernel-reported core order: entry `i` is the
usage computed from row `i` of the previous and row `i` of the current
sample. -/
theorem c3_truncates_preserving_order (ps cs : List CpuStat) :
    (cpu_usage ps cs).length = min ps.length cs.length ∧
    (∀ i : ℕ, ∀ p c : CpuStat, ps[i]? = some p → cs[i]? = some c →
      (cpu_usage ps cs)[i]? = some (coreUsage p c)) := by
  constructor
  · simp [cpu_usage]
  · intro i p c hp hc
    have hz : (List.zip ps cs)[i]? = some (p, c) := by
      rw [List.getElem?_zip_eq_some]
      exact ⟨hp, hc⟩
    simp [cpu_usage, List.getElem?_map, hz]

/-- Witness for `c3_truncates_preserving_order` on a concrete 2-row/1-row
pair. -/
theorem c3_truncates_preserving_order_witness :
    (cpu_usage [zeroStat, zeroStat] [ceCurrC1]).length = min 2 1 ∧
    (cpu_usage [zeroStat, zeroStat] [ceCurrC1])[0]? = some (coreUsage zeroStat ceCurrC1) :=
  ⟨(c3_truncates_preserving_order [zeroStat, zeroStat] [ceCurrC1]).1,
   (c3_truncates_preserving_order [zeroStat, zeroStat] [ceCurrC1]).2 0 zeroStat ceCurrC1 rfl rfl⟩

/-!
## MemInfo (`src/pytop/sysinfo.py` lines 180-258)
-/

/-- C4. For every snapshot containing all eight required fields, the refresh
succeeds (no error) and stores exactly
`used_memory = MemTotal - MemFree - Buffers - Cached - SReclaimable + Shmem`
and `used_swap = SwapTotal - SwapFree`, verbatim and unclamped — the formula
is an `Int` expression, so an inconsistent input (e.g. `MemFree = MemTotal`
with small buffers/cache and large shared memory subtracted the other way)
may come out negative and is still returned. -/
theorem c4_derived_memory_formula (s : MemState) (t f b c r sh st sf : Int) :
    memUpdate s (fullMap t f b c r sh st sf) =
      ({ total_memory := some t, used_memory := some (t - f - b - c - r + sh),
         total_swap := some st, used_swap := some (st - sf) }, false) := by
  rfl

/-- C5. Wholesale rejection fails: starting from a state whose exposed
`total_memory` is 100, a refresh on a map that is missing `MemFree` (all other
fields present, `MemTotal = 200`) raises — but the previously exposed
`total_memory` has already been overwritten with 200, so a partial snapshot
is exposed. -/
theorem c5_counterexample :
    memUpdate { total_memory := some 100, used_memory := some 10,
                total_swap := some 20, used_swap := some 5 }
        { fullMap 200 0 0 0 0 0 0 0 with MemFree := none } =
      ({ total_memory := some 200, used_memory := some 10,
         total_swap := some 20, used_swap := some 5 }, true) := by
  rfl

/-- C5 (amended). If any one of the eight required fields is missing the
refresh raises `SystemInfoError`; however the snapshot is not rejected
wholesale: the four fields are assigned in the order `total_memory`,
`used_memory`, `total_swap`, `used_swap`, and those assigned before the first
missing key keep their new values.  In particular, when `MemFree` is the
missing field, `total_memory` is updated to the incoming `MemTotal` while
`used_memory`, `total_swap` and `used_swap` retain their previous values. -/
theorem c5_missing_field_raises (s : MemState) (info : MemInfoMap)
    (h : missingRequired info) :
    (memUpdate s info).2 = true ∧
    (∀ t : Int, info.MemTotal = some t → info.MemFree = none →
      (memUpdate s info).1 = { s with total_memory := some t }) := by
  constructor
  · rcases info with ⟨mt, mf, bu, ca, re, sh, st, sf⟩
    simp only [missingRequired] at h
    cases mt <;> cases mf <;> cases bu <;> cases ca <;> cases re <;> cases sh <;>
      cases st <;> cases sf <;> simp_all [memUpdate]
  · intro t ht hf
    rcases info with ⟨mt, mf, bu, ca, re, sh, st, sf⟩
    simp only at ht hf
    subst ht hf
    rfl

/-- Witness for `c5_missing_field_raises`: the concrete state and
MemFree-less map of the counterexample. -/
theorem c5_missing_field_raises_witness :
    (memUpdate { total_memory := some 100, used_memory := some 10,
                 total_swap := some 20, used_swap := some 5 }
        { fullMap 200 0 0 0 0 0 0 0 with MemFree := none }).2 = true ∧
    (∀ t : Int,
      ({ fullMap 200 0 0 0 0 0 0 0 with MemFree := none } : MemInfoMap).MemTotal = some t →
      ({ fullMap 200 0 0 0 0 0 0 0 with MemFree := none } : MemInfoMap).MemFree = none →
      (memUpdate { total_memory := some 100, used_memory := some 10,
                   total_swap := some 20, used_swap := some 5 }
          { fullMap 200 0 0 0 0 0 0 0 with MemFree := none }).1 =
        { total_memory := some t, used_memory := some 10,
          total_swap := some 20, used_swap := some 5 }) :=
  c5_missing_field_raises _ _ (by decide)

/-!
## Process CPU sampling (`Process._read_stat`, src/pytop/sysinfo.py lines 346-361)
-/

/-- C8. Per-process CPU%: the first observation (both baselines `None`)
stores the current reading as baseline and reports 0; on every later
observation with baselines `t0`/`u0`, if the elapsed uptime `u - u0` is
positive the reported percentage is exactly
`100 * ((tickDelta / clockTicksPerSecond) / secondsElapsed)`, and if the
elapsed uptime is ≤ 0 it is exactly 0. -/
theorem c8_process_cpu_formula :
    (∀ clk t u : Int, ∀ cu : ℚ,
      (readStatCpu clk ⟨none, none, cu⟩ t u).cpu_usage = 0) ∧
    (∀ clk t u t0 u0 : Int, ∀ s : ProcCpuState,
      s.time_ticks_old = some t0 → s.uptime_old = some u0 → 0 < u - u0 →
      (readStatCpu clk s t u).cpu_usage =
        100 * (((t - t0 : Int) : ℚ) / (clk : ℚ) / ((u - u0 : Int) : ℚ))) ∧
    (∀ clk t u t0 u0 : Int, ∀ s : ProcCpuState,
      s.time_ticks_old = some t0 → s.uptime_old = some u0 → u - u0 ≤ 0 →
      (readStatCpu clk s t u).cpu_usage = 0) := by
  refine ⟨?_, ?_, ?_⟩
  · intro clk t u cu
    simp [readStatCpu]
  · intro clk t u t0 u0 s h1 h2 h3
    simp only [readStatCpu, h1, h2, Option.getD_some]
    rw [if_neg (by omega)]
  · intro clk t u t0 u0 s h1 h2 h3
    simp only [readStatCpu, h1, h2, Option.getD_some]
    rw [if_pos (by omega)]

/-- Witness for `c8_process_cpu_formula`: a fresh process reports 0; a
process observed 1 second later with 50 more ticks at 100 ticks/second
reports `100 * ((50 / 100) / 1)`; one re-observed at unchanged uptime
reports 0. -/
theorem c8_process_cpu_formula_witness :
    (readStatCpu 100 ⟨none, none, 7⟩ 400 50).cpu_usage = 0 ∧
    (readStatCpu 100 ⟨some 350, some 49, 7⟩ 400 50).cpu_usage =
      100 * (((400 - 350 : Int) : ℚ) / ((100 : Int) : ℚ) / ((50 - 49 : Int) : ℚ)) ∧
    (readStatCpu 100 ⟨some 350, some 50, 7⟩ 400 50).cpu_usage = 0 :=
  ⟨c8_process_cpu_formula.1 100 400 50 7,
   c8_process_cpu_formula.2.1 100 400 50 350 49 ⟨some 350, some 49, 7⟩ rfl rfl (by decide),
   c8_process_cpu_formula.2.2 100 400 50 350 50 ⟨some 350, some 50, 7⟩ rfl rfl (by decide)⟩

/-!
## ProcessesController (`src/pytop/sysinfo.py` lines 422-464)
-/

/-- C6. Evaluating the refresh on tracked ids {1,2,3} against enumeration
{2,3,4}: pid 4 is added with CPU% 0, but pid 1's record is NOT dropped (the
`del process` statement only unbinds the loop variable) and the records for
pids 2 and 3 keep their stale baselines and CPU% — no re-read happens even
though the table holds fresh tick totals for them. -/
theorem c6_stale_registry_after_refresh :
    ctrlUpdate 100 { processes := [c6rec1, c6rec2, c6rec3], previous := [1, 2, 3] }
        [2, 3, 4] c6table =
      ({ processes := [c6rec1, c6rec2, c6rec3,
                       { pid := 4, cpu := ⟨some 400, some 50, 0⟩ }],
         previous := [2, 3, 4] }, false) ∧
    c6rec1 ∈ (ctrlUpdate 100 { processes := [c6rec1, c6rec2, c6rec3], previous := [1, 2, 3] }
        [2, 3, 4] c6table).1.processes := by
  constructor
  · rfl
  · rw [show (ctrlUpdate 100 { processes := [c6rec1, c6rec2, c6rec3], previous := [1, 2, 3] }
        [2, 3, 4] c6table).1.processes = [c6rec1, c6rec2, c6rec3,
          { pid := 4, cpu := ⟨some 400, some 50, 0⟩ }] from rfl]
    exact List.mem_cons_self _ _

/-- C7. A pid whose directory vanished between enumeration and the detailed
read: the controller's refresh raises (returns with the error flag set)
instead of treating the pid as absent — `FileNotFoundError` is not caught
anywhere on that path. -/
theorem c7_counterexample :
    ctrlUpdate 100 { processes := [], previous := [] } [5] (fun _ => none) =
      ({ processes := [], previous := [] }, true) := by
  rfl

/-- Helper: if some pid in the work list has no table entry, the add loop
raises. -/
theorem addNew_raises_of_vanished (clk : Int) (table : Nat → Option ProcEntry)
    (pid : Nat) (h : table pid = none) :
    ∀ pids : List Nat, ∀ procs : List ProcRecord, pid ∈ pids →
      (addNew clk table procs pids).2 = true := by
  intro pids
  induction pids with
  | nil => intro procs hmem; cases hmem
  | cons q rest ih =>
    intro procs hmem
    by_cases hq : q = pid
    · subst hq
      simp only [addNew, h]
    · have hrest : pid ∈ rest := by
        cases hmem with
        | head => exact absurd rfl hq
        | tail _ hm => exact hm
      simp only [addNew]
      cases hqe : table q with
      | none => rfl
      | some e => exact ih _ hrest

/-- Helper: every object present after the add loop was either already
tracked or was built from an existing table entry. -/
theorem addNew_mem_of_mem (clk : Int) (table : Nat → Option ProcEntry) :
    ∀ pids : List Nat, ∀ procs : List ProcRecord, ∀ r : ProcRecord,
      r ∈ (addNew clk table procs pids).1 →
      r ∈ procs ∨ ∃ p e, table p = some e ∧ r = mkProcess clk p e := by
  intro pids
  induction pids with
  | nil => intro procs r hr; exact Or.inl hr
  | cons q rest ih =>
    intro procs r hr
    simp only [addNew] at hr
    cases hqe : table q with
    | none =>
      rw [hqe] at hr
      exact Or.inl hr
    | some e =>
      rw [hqe] at hr
      rcases ih _ _ hr with hmem | hbuilt
      · rcases List.mem_append.mp hmem with hold | hnew
        · exact Or.inl hold
        · right
          refine ⟨q, e, hqe, ?_⟩
          simpa using hnew
      · exact Or.inr hbuilt

/-- C7 (amended). When a newly enumerated pid's directory has vanished by
the time of the detailed read, the registry's refresh raises — the error
propagates out of `update` — and the vanished pid is not tracked: any record
with its pid after the failed call was already present before it. -/
theorem c7_vanished_dir_raises (clk : Int) (s : PCtrlState) (actual : List Nat)
    (table : Nat → Option ProcEntry) (pid : Nat)
    (hmem : pid ∈ actual) (hnew : pid ∉ s.previous) (hgone : table pid = none) :
    (ctrlUpdate clk s actual table).2 = true ∧
    (∀ r : ProcRecord, r ∈ (ctrlUpdate clk s actual table).1.processes →
      r.pid = pid → r ∈ s.processes) := by
  have hfil : pid ∈ actual.filter (fun p => decide (p ∉ s.previous)) := by
    rw [List.mem_filter]
    exact ⟨hmem, by simpa using hnew⟩
  have hraised := addNew_raises_of_vanished clk table pid hgone _ s.processes hfil
  constructor
  · simp only [ctrlUpdate, hraised]
    rfl
  · intro r hr hpid
    simp only [ctrlUpdate, hraised, if_pos] at hr
    rcases addNew_mem_of_mem clk table _ _ _ hr with hold | ⟨p, e, hpe, hre⟩
    · exact hold
    · exfalso
      have : r.pid = p := by rw [hre]; rfl
      rw [this] at hpid
      rw [hpid] at hpe
      rw [hpe] at hgone
      cases hgone

/-- Witness for `c7_vanished_dir_raises` on the concrete vanished-pid
scenario of the counterexample. -/
theorem c7_vanished_dir_raises_witness :
    (ctrlUpdate 100 { processes := [], previous := [] } [5] (fun _ => none)).2 = true ∧
    (∀ r : ProcRecord,
      r ∈ (ctrlUpdate 100 { processes := [], previous := [] } [5] (fun _ => none)).1.processes →
      r.pid = 5 → r ∈ ([] : List ProcRecord)) :=
  c7_vanished_dir_raises 100 { processes := [], previous := [] } [5] (fun _ => none) 5
    (by decide) (by decide) rfl

/-!
## Utility.kb_to_xb (`src/pytop/sysinfo.py` lines 475-486)
-/

/-- C9. The formatting helper maps 0 to `"0"`, 139552 to `"136M"` and
118206636 to `"112G"`; in the suffixed ranges the printed figure is the
floor of the binary-prefix division — `figure * unit ≤ kb`, never rounded
up. -/
theorem c9_kb_formatting :
    kb_to_xb 0 = "0" ∧ kb_to_xb 139552 = "136M" ∧ kb_to_xb 118206636 = "112G" ∧
    (∀ kb : Int, 102400 ≤ kb → kb < 1048576 →
      kb_to_xb kb = toString (kb.fdiv 1024) ++ "M" ∧ kb.fdiv 1024 * 1024 ≤ kb) ∧
    (∀ kb : Int, 1048576 ≤ kb →
      kb_to_xb kb = toString (kb.fdiv 1048576) ++ "G" ∧ kb.fdiv 1048576 * 1048576 ≤ kb) := by
  refine ⟨by decide, by decide, by decide, ?_, ?_⟩
  · intro kb h1 h2
    constructor
    · unfold kb_to_xb
      rw [if_neg (by omega), if_pos (by omega)]
    · rw [Int.fdiv_eq_ediv kb (by norm_num)]
      exact Int.ediv_mul_le kb (by norm_num)
  · intro kb h1
    constructor
    · unfold kb_to_xb
      rw [if_neg (by omega), if_neg (by omega)]
      norm_num
    · rw [Int.fdiv_eq_ediv kb (by norm_num)]
      exact Int.ediv_mul_le kb (by norm_num)

/-- Witness for `c9_kb_formatting` at the two suffixed sample points. -/
theorem c9_kb_formatting_witness :
    (kb_to_xb 139552 = toString ((139552 : Int).fdiv 1024) ++ "M" ∧
      (139552 : Int).fdiv 1024 * 1024 ≤ 139552) ∧
    (kb_to_xb 118206636 = toString ((118206636 : Int).fdiv 1048576) ++ "G" ∧
      (118206636 : Int).fdiv 1048576 * 1048576 ≤ 118206636) :=
  ⟨c9_kb_formatting.2.2.2.1 139552 (by decide) (by decide),
   c9_kb_formatting.2.2.2.2 118206636 (by decide)⟩

/-- C10. A non-`int` argument raises `TypeError`; every `int` argument
returns a string without raising, and the suffix thresholds are exact:
below 102400 the plain decimal string, from 102400 up to (excluding) 1048576
the quotient by 1024 with `M`, and from 1048576 on the quotient by 1048576
with `G`. -/
theorem c10_kb_thresholds :
    kb_to_xb_py .nonInt = .error "TypeError" ∧
    (∀ n : Int, kb_to_xb_py (.int n) = .ok (kb_to_xb n)) ∧
    (∀ n : Int, 0 ≤ n → n < 102400 → kb_to_xb n = toString n) ∧
    (∀ n : Int, 102400 ≤ n → n < 1048576 → kb_to_xb n = toString (n.fdiv 1024) ++ "M") ∧
    (∀ n : Int, 1048576 ≤ n → kb_to_xb n = toString (n.fdiv 1048576) ++ "G") := by
  refine ⟨rfl, fun n => rfl, ?_, ?_, ?_⟩
  · intro n h1 h2
    unfold kb_to_xb
    rw [if_pos (by omega)]
  · intro n h1 h2
    unfold kb_to_xb
    rw [if_neg (by omega), if_pos (by omega)]
  · intro n h1
    unfold kb_to_xb
    rw [if_neg (by omega), if_neg (by omega)]
    norm_num

/-- Witness for `c10_kb_thresholds` at the threshold boundary points. -/
theorem c10_kb_thresholds_witness :
    kb_to_xb 102399 = toString (102399 : Int) ∧
    kb_to_xb 102400 = toString ((102400 : Int).fdiv 1024) ++ "M" ∧
    kb_to_xb 1048575 = toString ((1048575 : Int).fdiv 1024) ++ "M" ∧
    kb_to_xb 1048576 = toString ((1048576 : Int).fdiv 1048576) ++ "G" :=
  ⟨c10_kb_thresholds.2.2.1 102399 (by decide) (by decide),
   c10_kb_thresholds.2.2.2.1 102400 (by decide) (by decide),
   c10_kb_thresholds.2.2.2.1 1048575 (by decide) (by decide),
   c10_kb_thresholds.2.2.2.2 1048576 (by decide)⟩

